import Mathlib

/-!
Shallow embedding of `src/resources/invoices.ts` (the `RazorInvoices`
resource of the razorpay-typescript client): its data model, its validation
gates, and the single outgoing transport call each operation makes.

JavaScript runtime values that the validation gates inspect by truthiness
are embedded so that every falsy shape the checks distinguish is
representable: optional strings as `Option String` (with `""` falsy),
numbers as `Int` (with `0` falsy), loosely-typed query fields as the
`JVal` type below.  The HTTP transport is a parameter: an operation either
rejects locally (`CallResult.reject`) or issues exactly one request
(`CallResult.request`), and `run` gives the promise semantics of each
outcome against an arbitrary transport function.
-/

/-- A loosely-typed JavaScript value, as received in query/filter fields.
`date` is a `Date` object carrying its epoch timestamp (JS `Number(date)`
yields that timestamp). `nan` is the JS `NaN` number. -/
inductive JVal where
  | undef : JVal
  | null : JVal
  | nan : JVal
  | num (n : Int) : JVal
  | str (s : String) : JVal
  | boolean (b : Bool) : JVal
  | date (epochMs : Int) : JVal
  deriving DecidableEq, Repr

/-- JS truthiness of a `JVal`: `undefined`, `null`, `NaN`, `0`, `""` and
`false` are falsy; every other value (including any `Date` object) is
truthy. -/
def JVal.truthy : JVal → Bool
  | .undef => false
  | .null => false
  | .nan => false
  | .num n => n != 0
  | .str s => s != ""
  | .boolean b => b
  | .date _ => true

/-- The value of an all-digit character list, `none` when empty or when a
non-digit occurs. Helper for the model of JS `Number(string)`. -/
def digitsVal : List Char → Option Nat
  | [] => none
  | cs =>
    if cs.all Char.isDigit then
      some (cs.foldl (fun a c => a * 10 + (c.toNat - 48)) 0)
    else none

/-- Model of the JS `Number(string)` coercion, restricted to optionally
signed decimal integer literals: `""` coerces to `0`, a signed digit string
to its value, anything else to `NaN` (`none`). -/
def strToInt (s : String) : Option Int :=
  match s.toList with
  | [] => some 0
  | '-' :: rest => (digitsVal rest).map (fun n => -(n : Int))
  | '+' :: rest => (digitsVal rest).map (fun n => (n : Int))
  | cs => (digitsVal cs).map (fun n => (n : Int))

/-- Model of the JS `Number(v)` coercion on a `JVal`: always yields a
number (`num` or `nan`). -/
def JVal.toNumber : JVal → JVal
  | .undef => .nan
  | .null => .num 0
  | .nan => .nan
  | .num n => .num n
  | .str s =>
    match strToInt s with
    | some n => .num n
    | none => .nan
  | .boolean b => .num (if b then 1 else 0)
  | .date t => .num t

/-- JS `a || b`: the first operand when truthy, the second otherwise. -/
def jsOr (a b : JVal) : JVal := if a.truthy then a else b

/-- JS truthiness of a possibly-absent string: `undefined`/`null` and the
empty string are falsy. -/
def truthyOptStr : Option String → Bool
  | none => false
  | some s => s != ""

/-- JS truthiness of a number: `0` is falsy. -/
def truthyNum (n : Int) : Bool := n != 0

/-- JS template-literal interpolation of a possibly-undefined string:
`undefined` prints as the text "undefined". -/
def jsInterp : Option String → String
  | none => "undefined"
  | some s => s

/-- Modelled from the spec: `IMap` (src/helper.ts, absent from the sources)
is a string-keyed map. -/
abbrev IMap (α : Type) := List (String × α)

structure IRazorInvoiceAddress where
  line1 : String
  line2 : Option String
  zipcode : String
  city : String
  state : Option String
  country : String
  deriving DecidableEq, Repr

structure IRazorCustomerDetails where
  name : Option String
  email : Option String
  contact : Option String
  billing_address : Option IRazorInvoiceAddress
  shipping_address : Option IRazorInvoiceAddress
  deriving DecidableEq, Repr

/-- Modelled from the spec: `IRazorAddressId` (resources/customers.ts,
absent from the sources) — an address record extended with a
server-assigned id. -/
structure IRazorAddressId extends IRazorInvoiceAddress where
  id : String
  deriving DecidableEq, Repr

structure IRazorCustomerDetailsId where
  name : Option String
  email : Option String
  contact : Option String
  id : Option String
  gstin : Option String
  customer_name : Option String
  customer_email : Option String
  customer_contact : Option String
  billing_address : Option IRazorAddressId
  shipping_address : Option IRazorAddressId
  deriving DecidableEq, Repr

/-- A line item of an invoice draft. The TypeScript interface declares
`item_id?: string | null`, `name?: string | null` and a required numeric
`amount`; the validation gate inspects all three by truthiness. -/
structure IRazorLineInvoiceItem where
  item_id : Option String
  name : Option String
  description : Option String
  amount : Int
  currency : String
  quantity : Int
  deriving DecidableEq, Repr

structure IRazorLineInvoiceItemId extends IRazorLineInvoiceItem where
  id : String
  ref_id : Option String
  ref_type : Option String
  unit_amount : Option Int
  gross_amount : Option Int
  tax_amount : Option Int
  taxable_amount : Option Int
  type : Option String
  tax_inclusive : Option Bool
  hsn_code : Option String
  sac_code : Option String
  tax_rate : Option Int
  unit : Option String
  deriving DecidableEq, Repr

inductive TRazorInvoiceStatus where
  | draft | issued | partially_paid | paid | cancelled | expired | deleted
  deriving DecidableEq, Repr

/-- An invoice draft (`IRazorInvoice`). The TypeScript interface declares
`customer_id: string` and `line_items: IRazorLineInvoiceItem[]` as
required, but `create` guards both with runtime truthiness/existence
checks (`!customer_id`, `!line_items`), so the embedding widens them to
`Option` with `none` for an absent (undefined) field. -/
structure IRazorInvoice where
  description : Option String
  customer_id : Option String
  customer : Option IRazorCustomerDetails
  order_id : Option String
  line_items : Option (List IRazorLineInvoiceItem)
  status : Option TRazorInvoiceStatus
  expire_by : Option Int
  sms_notify : Option Int
  email_notify : Option Int
  partial_payment : Option Bool
  deriving DecidableEq, Repr

/-- The identified invoice returned by the service (`IRazorInvoiceId`):
the draft's fields plus server-assigned identifiers, totals and
timestamps. -/
structure IRazorInvoiceId where
  description : Option String
  customer_id : Option String
  customer : Option IRazorCustomerDetails
  order_id : Option String
  status : Option TRazorInvoiceStatus
  expire_by : Option Int
  sms_notify : Option Int
  email_notify : Option Int
  partial_payment : Option Bool
  id : String
  entity : String
  type : String
  invoice_number : String
  customer_details : IRazorCustomerDetailsId
  line_items : List IRazorLineInvoiceItemId
  issued_at : Option Int
  paid_at : Option Int
  cancelled_at : Option Int
  expired_at : Option Int
  sms_status : Option String
  email_status : Option String
  gross_amount : Option Int
  tax_amount : Option Int
  taxable_amount : Option Int
  amount : Int
  amount_paid : Option Int
  amount_due : Option Int
  currency : String
  notes : Option (IMap String)
  short_url : Option String
  billing_start : Option Int
  billing_end : Option Int
  group_taxes_discounts : Option Bool
  date : Option Int
  terms : Option Int
  comment : Option Int
  created_at : Int
  deriving DecidableEq, Repr

/-- Modelled from the spec: `IRazorInvoiceQuery` (src/razorpay.ts, absent
from the sources). §3: filter parameters `from`, `to` (date-like values)
and `count`, `skip` (pagination counters), alongside any other filter
fields, which `rest` holds as key/value pairs. `from` and `to` are Lean keywords,
so the fields are spelled `from_` and `to_`. -/
structure IRazorInvoiceQuery where
  from_ : JVal
  to_ : JVal
  count : JVal
  skip : JVal
  rest : List (String × JVal)
  deriving DecidableEq, Repr

/-- The empty query `{}`: every field absent (undefined), the default
argument of `fetchAll`. -/
def emptyQuery : IRazorInvoiceQuery :=
  { from_ := JVal.undef, to_ := JVal.undef, count := JVal.undef,
    skip := JVal.undef, rest := [] }

/-- A local validation error. The source rejects some operations with a
plain string and others with the resource base's error constructors. -/
inductive RazorError where
  | strErr (msg : String) : RazorError
  | missingId : RazorError
  | mandatoryField (field : String) : RazorError
  deriving DecidableEq, Repr

/-- Modelled from the spec: the resource base (resources/util/interface.ts,
absent from the sources) supplies a reusable "missing identifier" error
(§4.1, §7 MissingIdentifierError). -/
def MISSING_ID_ERROR : RazorError := RazorError.missingId

/-- Modelled from the spec: the resource base's "field mandatory" error
constructor, parameterized by the field name (§4.1, §7
MandatoryFieldError). -/
def FIELD_MANDATORY_ERROR (field : String) : RazorError :=
  RazorError.mandatoryField field

/-- Modelled from the spec: the resource base binds each resource to its
sub-path (§4.1); the `RazorInvoices` constructor passes `/invoices`. -/
def resourceUrl : String := "/invoices"

inductive Method where
  | get | post | patch
  deriving DecidableEq, Repr

/-- The body/query payload of an outgoing request, one shape per call
site: `invoiceCreate` is the object `{ type: 'invoice', ...params }` of
`create` (the discriminator plus every field of the draft), `listQuery`
the normalized query of `fetchAll`, `editParams` the params object of
`edit`. -/
inductive RequestData where
  | invoiceCreate (type : String) (draft : IRazorInvoice) : RequestData
  | listQuery (q : IRazorInvoiceQuery) : RequestData
  | editParams (p : IRazorInvoiceId) : RequestData
  deriving DecidableEq, Repr

structure HttpRequest where
  method : Method
  url : String
  data : Option RequestData
  deriving DecidableEq, Repr

/-- The local outcome of an operation: a local rejection, or exactly one
outgoing request whose response the operation resolves with. -/
inductive CallResult where
  | reject (err : RazorError) : CallResult
  | request (req : HttpRequest) : CallResult
  deriving DecidableEq, Repr

/-- Promise semantics of a `CallResult` against a transport: a rejection
issues no network call and rejects; a request issues exactly that one call
and resolves with exactly the transport's value for it. -/
def run {α : Type} (transport : HttpRequest → α) :
    CallResult → List HttpRequest × Except RazorError α
  | CallResult.reject e => ([], Except.error e)
  | CallResult.request r => ([r], Except.ok (transport r))

def customerIdentityMsg : String :=
  "Ether `customer_id` or `customer` must be provided but found none."

def itemIdOrNameMsg : String :=
  "Ether `item_id` or `name` must be provided but found none."

def itemIdOrAmountMsg : String :=
  "Ether `item_id` or `amount` must be provided but found none."

/-- The `for (const { item_id, name, amount } of line_items)` loop of
`create` (invoices.ts lines 144-151): returns the error of the first
offending item, checking `item_id`/`name` before `item_id`/`amount` within
each item, `none` when every item passes. -/
def checkLineItems : List IRazorLineInvoiceItem → Option RazorError
  | [] => none
  | item :: rest =>
    if !(truthyOptStr item.item_id) && !(truthyOptStr item.name) then
      some (RazorError.strErr itemIdOrNameMsg)
    else if !(truthyOptStr item.item_id) && !(truthyNum item.amount) then
      some (RazorError.strErr itemIdOrAmountMsg)
    else checkLineItems rest

/-- Whether a line item passes both either/or rules of the loop body. -/
def itemOk (item : IRazorLineInvoiceItem) : Bool :=
  (truthyOptStr item.item_id || truthyOptStr item.name) &&
  (truthyOptStr item.item_id || truthyNum item.amount)

/-- `RazorInvoices.create` (invoices.ts lines 136-157). -/
def RazorInvoices.create (params : IRazorInvoice) : CallResult :=
  if !(truthyOptStr params.customer_id) && !(params.customer.isSome) then
    CallResult.reject (RazorError.strErr customerIdentityMsg)
  else
    match params.line_items with
    | none => CallResult.reject (FIELD_MANDATORY_ERROR "line_items")
    | some items =>
      if items.length = 0 then
        CallResult.reject (FIELD_MANDATORY_ERROR "line_items")
      else
        match checkLineItems items with
        | some err => CallResult.reject err
        | none =>
          CallResult.request
            { method := Method.post, url := resourceUrl,
              data := some (RequestData.invoiceCreate "invoice" params) }

/-- `RazorInvoices.fetchAll` (invoices.ts lines 166-190). The imported
`normalizeDate` (src/helper.ts, absent from the sources) is a parameter:
§4.5 describes it as the pure date-to-epoch coercion. The source gives
`query` the default `{}` (`emptyQuery` here). -/
def RazorInvoices.fetchAll (normalizeDate : JVal → JVal)
    (query : IRazorInvoiceQuery) : CallResult :=
  let f := if query.from_.truthy then normalizeDate query.from_ else query.from_
  let t := if query.to_.truthy then normalizeDate query.to_ else query.to_
  let c := jsOr query.count.toNumber (JVal.num 10)
  let s := jsOr query.skip.toNumber (JVal.num 0)
  CallResult.request
    { method := Method.get, url := resourceUrl,
      data := some (RequestData.listQuery
        { query with from_ := f, to_ := t, count := c, skip := s }) }

/-- `RazorInvoices.fetch` (invoices.ts lines 199-206). -/
def RazorInvoices.fetch (invoiceId : Option String) : CallResult :=
  if !(truthyOptStr invoiceId) then
    CallResult.reject MISSING_ID_ERROR
  else
    CallResult.request
      { method := Method.get, url := resourceUrl ++ "/" ++ jsInterp invoiceId,
        data := none }

/-- `RazorInvoices.cancel` (invoices.ts lines 215-222). -/
def RazorInvoices.cancel (invoiceId : Option String) : CallResult :=
  if !(truthyOptStr invoiceId) then
    CallResult.reject MISSING_ID_ERROR
  else
    CallResult.request
      { method := Method.post,
        url := resourceUrl ++ "/" ++ jsInterp invoiceId ++ "/cancel",
        data := none }

/-- `RazorInvoices.edit` (invoices.ts lines 231-244). The TypeScript
signature declares `params: IRazorInvoiceId`, but the body guards
`!params`, so the embedding widens it to `Option` with `none` for a
null/undefined payload. -/
def RazorInvoices.edit (invoiceId : Option String)
    (params : Option IRazorInvoiceId) : CallResult :=
  if !(truthyOptStr invoiceId) then
    CallResult.reject MISSING_ID_ERROR
  else
    match params with
    | none => CallResult.reject (FIELD_MANDATORY_ERROR "Params")
    | some p =>
      CallResult.request
        { method := Method.patch,
          url := resourceUrl ++ "/" ++ jsInterp invoiceId,
          data := some (RequestData.editParams p) }

/-- `RazorInvoices.notify` (invoices.ts lines 255-262). The TypeScript
signature declares `medium: 'sms' | 'email'`, but the body never inspects
it — it is interpolated directly into the URL — so the embedding takes any
possibly-undefined string. -/
def RazorInvoices.notify (invoiceId : Option String)
    (medium : Option String) : CallResult :=
  if !(truthyOptStr invoiceId) then
    CallResult.reject MISSING_ID_ERROR
  else
    CallResult.request
      { method := Method.post,
        url := resourceUrl ++ "/" ++ jsInterp invoiceId ++ "/notify_by/" ++
          jsInterp medium,
        data := none }

/-! ## Concrete sample values, used by counterexamples and witnesses -/

def sampleCustomer : IRazorCustomerDetails :=
  { name := some "Alice Doe", email := some "alice@example.com",
    contact := some "9000000000", billing_address := none,
    shipping_address := none }

def sampleItem : IRazorLineInvoiceItem :=
  { item_id := some "item_1", name := some "Widget", description := none,
    amount := 100, currency := "INR", quantity := 1 }

def sampleDraft : IRazorInvoice :=
  { description := none, customer_id := some "cust_1", customer := none,
    order_id := some "order_1", line_items := some [sampleItem],
    status := none, expire_by := none, sms_notify := none,
    email_notify := none, partial_payment := none }

/-! ## Theorems about the embedded operations -/

/-- C1: an `IRazorInvoice` draft that passes all three validation checks
(a truthy `customer_id` or `customer`, a present non-empty `line_items`,
every line item passing both either/or rules) makes `create` issue exactly
one POST to the resource base path whose payload is the draft augmented
with the discriminator `type = 'invoice'`, perform no other network call,
and resolve with exactly the transport's value for that request. -/
theorem create_valid_draft_posts_once {α : Type} (transport : HttpRequest → α)
    (p : IRazorInvoice) (items : List IRazorLineInvoiceItem)
    (hcust : (truthyOptStr p.customer_id || p.customer.isSome) = true)
    (hitems : p.line_items = some items)
    (hne : items.length ≠ 0)
    (hok : checkLineItems items = none) :
    run transport (RazorInvoices.create p) =
      ([{ method := Method.post, url := resourceUrl,
          data := some (RequestData.invoiceCreate "invoice" p) }],
       Except.ok (transport
         { method := Method.post, url := resourceUrl,
           data := some (RequestData.invoiceCreate "invoice" p) })) := by
  have h1 : (!(truthyOptStr p.customer_id) && !(p.customer.isSome)) = false := by
    cases h : truthyOptStr p.customer_id <;> simp_all
  have h2 : ¬(truthyOptStr p.customer_id = false ∧ p.customer = none) := by
    rintro ⟨ha, hb⟩
    rw [ha, hb] at hcust
    simp at hcust
  unfold RazorInvoices.create
  rw [hitems]
  simp [h1, hne, hok, run, h2]

/-- Witness for C1 at a concrete valid draft. -/
theorem create_valid_draft_posts_once_witness :
    run (fun _ => (0 : Nat)) (RazorInvoices.create sampleDraft) =
      ([{ method := Method.post, url := resourceUrl,
          data := some (RequestData.invoiceCreate "invoice" sampleDraft) }],
       Except.ok 0) :=
  create_valid_draft_posts_once (fun _ => 0) sampleDraft [sampleItem]
    (by decide) rfl (by decide) (by decide)

def draftBothIdentities : IRazorInvoice :=
  { sampleDraft with customer := some sampleCustomer }

def draftNoIdentity : IRazorInvoice :=
  { sampleDraft with customer_id := none }

/-- Each error the line-item loop can return carries one of the two
either/or messages — never the customer-identity message. -/
theorem checkLineItems_err_cases (items : List IRazorLineInvoiceItem)
    (err : RazorError) (h : checkLineItems items = some err) :
    err = RazorError.strErr itemIdOrNameMsg ∨
    err = RazorError.strErr itemIdOrAmountMsg := by
  induction items with
  | nil => simp [checkLineItems] at h
  | cons item rest ih =>
    rw [checkLineItems] at h
    split at h
    · exact Or.inl (Option.some.inj h).symm
    · split at h
      · exact Or.inr (Option.some.inj h).symm
      · exact ih h

/-- When the customer-identity condition does not hold, `create` never
rejects with the customer-identity error, whatever else it does. -/
theorem create_nonidentity_reject (p : IRazorInvoice)
    (hb : (!(truthyOptStr p.customer_id) && !(p.customer.isSome)) = false) :
    RazorInvoices.create p ≠
      CallResult.reject (RazorError.strErr customerIdentityMsg) := by
  unfold RazorInvoices.create
  rw [if_neg (by rw [hb]; simp)]
  split
  · simp [FIELD_MANDATORY_ERROR]
  · rename_i items hli
    split
    · simp [FIELD_MANDATORY_ERROR]
    · split
      · rename_i err hchk
        rcases checkLineItems_err_cases items err hchk with he | he <;>
          rw [he] <;> decide
      · simp

/-- C2 counterexample: a draft with both `customer_id` and `customer`
truthy — so not exactly one of the two is truthy — is nevertheless not
rejected with the customer-identity error by `create`, contradicting the
claim's "if and only if not exactly one is truthy". -/
theorem create_both_identities_accepted :
    (truthyOptStr draftBothIdentities.customer_id &&
      draftBothIdentities.customer.isSome) = true ∧
    RazorInvoices.create draftBothIdentities ≠
      CallResult.reject (RazorError.strErr customerIdentityMsg) := by
  constructor
  · decide
  · decide

/-- C2 (amended): `create` rejects with the customer-identity error if and
only if both `customer_id` and `customer` are falsy (at least one must be
truthy, not exactly one); a draft with neither is rejected with no network
call issued. -/
theorem create_identity_check_iff {α : Type} (transport : HttpRequest → α)
    (p : IRazorInvoice) :
    (RazorInvoices.create p =
        CallResult.reject (RazorError.strErr customerIdentityMsg) ↔
      (truthyOptStr p.customer_id = false ∧ p.customer.isSome = false)) ∧
    (truthyOptStr p.customer_id = false → p.customer.isSome = false →
      run transport (RazorInvoices.create p) =
        ([], Except.error (RazorError.strErr customerIdentityMsg))) := by
  by_cases hb : (!(truthyOptStr p.customer_id) && !(p.customer.isSome)) = true
  · have h1 : truthyOptStr p.customer_id = false := by
      cases h : truthyOptStr p.customer_id <;> simp_all
    have h2 : p.customer.isSome = false := by
      cases h : p.customer.isSome <;> simp_all
    have hcreate : RazorInvoices.create p =
        CallResult.reject (RazorError.strErr customerIdentityMsg) := by
      unfold RazorInvoices.create
      rw [if_pos hb]
    exact ⟨⟨fun _ => ⟨h1, h2⟩, fun _ => hcreate⟩,
      fun _ _ => by simp [hcreate, run]⟩
  · have hbf : (!(truthyOptStr p.customer_id) && !(p.customer.isSome)) = false := by
      cases h : (!(truthyOptStr p.customer_id) && !(p.customer.isSome)) <;> simp_all
    have hne := create_nonidentity_reject p hbf
    refine ⟨⟨fun h => absurd h hne, ?_⟩, ?_⟩
    · rintro ⟨h1, h2⟩
      rw [h1, h2] at hbf
      simp at hbf
    · intro h1 h2
      rw [h1, h2] at hbf
      simp at hbf

/-- Witness for the amended C2 at a concrete draft lacking both identity
forms. -/
theorem create_identity_check_iff_witness :
    run (fun _ => (0 : Nat)) (RazorInvoices.create draftNoIdentity) =
      ([], Except.error (RazorError.strErr customerIdentityMsg)) :=
  (create_identity_check_iff (fun _ => 0) draftNoIdentity).2 rfl rfl

/-- The loop's result on a list whose first offending item is `bad`: every
passing item before it is skipped, and the returned error corresponds to
the first rule `bad` violates (the `item_id`/`name` rule is checked before
the `item_id`/`amount` rule), independently of the items after `bad`. -/
theorem checkLineItems_first_offender (pre : List IRazorLineInvoiceItem)
    (bad : IRazorLineInvoiceItem) (post : List IRazorLineInvoiceItem)
    (hpre : ∀ j ∈ pre, itemOk j = true) (hbad : itemOk bad = false) :
    checkLineItems (pre ++ bad :: post) =
      some (RazorError.strErr
        (if !(truthyOptStr bad.item_id) && !(truthyOptStr bad.name)
         then itemIdOrNameMsg else itemIdOrAmountMsg)) := by
  induction pre with
  | nil =>
    simp only [List.nil_append]
    rw [checkLineItems]
    by_cases h1 : (!(truthyOptStr bad.item_id) && !(truthyOptStr bad.name)) = true
    · rw [if_pos h1, if_pos h1]
    · have h1f : (!(truthyOptStr bad.item_id) && !(truthyOptStr bad.name)) = false := by
        cases h : (!(truthyOptStr bad.item_id) && !(truthyOptStr bad.name)) <;>
          simp_all
      have h2 : (!(truthyOptStr bad.item_id) && !(truthyNum bad.amount)) = true := by
        simp only [itemOk] at hbad
        cases ha : truthyOptStr bad.item_id <;>
          cases hn : truthyOptStr bad.name <;>
            cases hm : truthyNum bad.amount <;> simp_all
      rw [if_neg h1, if_pos h2, if_neg h1]
  | cons j rest ih =>
    have hj := hpre j (by simp)
    have hrest : ∀ k ∈ rest, itemOk k = true := fun k hk => hpre k (by simp [hk])
    have c1 : (!(truthyOptStr j.item_id) && !(truthyOptStr j.name)) = false := by
      simp only [itemOk] at hj
      cases ha : truthyOptStr j.item_id <;>
        cases hn : truthyOptStr j.name <;> simp_all
    have c2 : (!(truthyOptStr j.item_id) && !(truthyNum j.amount)) = false := by
      simp only [itemOk] at hj
      cases ha : truthyOptStr j.item_id <;>
        cases hm : truthyNum j.amount <;> simp_all
    simp only [List.cons_append]
    rw [checkLineItems, if_neg (by rw [c1]; simp), if_neg (by rw [c2]; simp)]
    exact ih hrest

/-- C3: for a draft passing the customer-identity and `line_items` checks,
`create` examines line items in order and rejects at the first offending
item, checking the `item_id`/`name` rule before the `item_id`/`amount`
rule within that item, raising the error of the first violated rule; the
items after the first offender (here arbitrary) are never examined and no
errors are aggregated. -/
theorem create_rejects_first_offending_item {α : Type}
    (transport : HttpRequest → α) (p : IRazorInvoice)
    (pre : List IRazorLineInvoiceItem) (bad : IRazorLineInvoiceItem)
    (post : List IRazorLineInvoiceItem)
    (hcust : (truthyOptStr p.customer_id || p.customer.isSome) = true)
    (hitems : p.line_items = some (pre ++ bad :: post))
    (hpre : ∀ j ∈ pre, itemOk j = true)
    (hbad : itemOk bad = false) :
    run transport (RazorInvoices.create p) =
      ([], Except.error (RazorError.strErr
        (if !(truthyOptStr bad.item_id) && !(truthyOptStr bad.name)
         then itemIdOrNameMsg else itemIdOrAmountMsg))) := by
  have h2 : ¬(truthyOptStr p.customer_id = false ∧ p.customer = none) := by
    rintro ⟨ha, hb⟩
    rw [ha, hb] at hcust
    simp at hcust
  have hchk := checkLineItems_first_offender pre bad post hpre hbad
  by_cases hc : (!(truthyOptStr bad.item_id) && !(truthyOptStr bad.name)) = true
  · rw [if_pos hc] at hchk ⊢
    unfold RazorInvoices.create
    rw [hitems]
    simp [h2, hchk, run]
  · rw [if_neg hc] at hchk ⊢
    unfold RazorInvoices.create
    rw [hitems]
    simp [h2, hchk, run]

def badItemNoIdName : IRazorLineInvoiceItem :=
  { item_id := none, name := none, description := none, amount := 50,
    currency := "INR", quantity := 1 }

def afterItemAlsoBad : IRazorLineInvoiceItem :=
  { item_id := none, name := some "After", description := none, amount := 0,
    currency := "INR", quantity := 1 }

def draftFirstOffender : IRazorInvoice :=
  { sampleDraft with
    line_items := some [sampleItem, badItemNoIdName, afterItemAlsoBad] }

/-- Witness for C3: the second item violates the `item_id`/`name` rule and
`create` rejects with that rule's error even though the third item is also
offending. -/
theorem create_rejects_first_offending_item_witness :
    run (fun _ => (0 : Nat)) (RazorInvoices.create draftFirstOffender) =
      ([], Except.error (RazorError.strErr itemIdOrNameMsg)) :=
  create_rejects_first_offending_item (fun _ => 0) draftFirstOffender
    [sampleItem] badItemNoIdName [afterItemAlsoBad]
    (by decide) rfl (by decide) (by decide)

def draftEmptyItems : IRazorInvoice :=
  { sampleDraft with line_items := some [] }

/-- C4: a draft with a truthy customer identity whose `line_items` is
absent or empty makes `create` reject with the mandatory-field error
naming `line_items`, issuing no network call. -/
theorem create_empty_line_items_rejects {α : Type}
    (transport : HttpRequest → α) (p : IRazorInvoice)
    (hcust : (truthyOptStr p.customer_id || p.customer.isSome) = true)
    (hli : p.line_items = none ∨ p.line_items = some []) :
    run transport (RazorInvoices.create p) =
      ([], Except.error (FIELD_MANDATORY_ERROR "line_items")) := by
  have h2 : ¬(truthyOptStr p.customer_id = false ∧ p.customer = none) := by
    rintro ⟨ha, hb⟩
    rw [ha, hb] at hcust
    simp at hcust
  unfold RazorInvoices.create
  rcases hli with h | h <;> rw [h] <;> simp [h2, run]

/-- Witness for C4 at a concrete draft whose `line_items` is the empty
sequence. -/
theorem create_empty_line_items_rejects_witness :
    run (fun _ => (0 : Nat)) (RazorInvoices.create draftEmptyItems) =
      ([], Except.error (FIELD_MANDATORY_ERROR "line_items")) :=
  create_empty_line_items_rejects (fun _ => 0) draftEmptyItems (by decide)
    (Or.inr rfl)

/-- C5: `fetchAll` never rejects locally: for every query it issues
exactly one GET to the base path whose data has `count` equal to the
numeric coercion of `query.count`, or 10 when that coercion is falsy
(non-numeric coercions yield the falsy NaN); `skip` likewise with default
0; and `from`/`to` replaced by their date normalization exactly when they
are truthy, left untouched otherwise; and it resolves with exactly the
transport's value. -/
theorem fetchAll_normalizes {α : Type} (normalizeDate : JVal → JVal)
    (transport : HttpRequest → α) (q : IRazorInvoiceQuery) :
    ∃ r : HttpRequest,
      run transport (RazorInvoices.fetchAll normalizeDate q) =
        ([r], Except.ok (transport r)) ∧
      r.method = Method.get ∧ r.url = resourceUrl ∧
      r.data = some (RequestData.listQuery
        { from_ := if q.from_.truthy then normalizeDate q.from_ else q.from_,
          to_ := if q.to_.truthy then normalizeDate q.to_ else q.to_,
          count := if q.count.toNumber.truthy then q.count.toNumber
                   else JVal.num 10,
          skip := if q.skip.toNumber.truthy then q.skip.toNumber
                  else JVal.num 0,
          rest := q.rest }) :=
  ⟨_, rfl, rfl, rfl, rfl⟩

/-- C6: `fetchAll`'s normalization touches only `from`, `to`, `count` and
`skip`: every other field of the query reaches the outgoing GET data
unchanged (same key, same value). -/
theorem fetchAll_preserves_other_fields (normalizeDate : JVal → JVal)
    (q : IRazorInvoiceQuery) :
    ∃ nq : IRazorInvoiceQuery,
      RazorInvoices.fetchAll normalizeDate q = CallResult.request
        { method := Method.get, url := resourceUrl,
          data := some (RequestData.listQuery nq) } ∧
      nq.rest = q.rest :=
  ⟨_, rfl, rfl⟩

/-- C7: `fetch`, `cancel`, `edit` and `notify` all reject with the
missing-identifier error and issue zero network calls when the invoice
identifier is falsy (empty string or undefined); with a truthy identifier
none of them ever raises the missing-identifier error. -/
theorem id_required_operations {α : Type} (transport : HttpRequest → α)
    (invoiceId : Option String) (params : Option IRazorInvoiceId)
    (medium : Option String) :
    (truthyOptStr invoiceId = false →
      run transport (RazorInvoices.fetch invoiceId) =
        ([], Except.error MISSING_ID_ERROR) ∧
      run transport (RazorInvoices.cancel invoiceId) =
        ([], Except.error MISSING_ID_ERROR) ∧
      run transport (RazorInvoices.edit invoiceId params) =
        ([], Except.error MISSING_ID_ERROR) ∧
      run transport (RazorInvoices.notify invoiceId medium) =
        ([], Except.error MISSING_ID_ERROR)) ∧
    (truthyOptStr invoiceId = true →
      RazorInvoices.fetch invoiceId ≠ CallResult.reject MISSING_ID_ERROR ∧
      RazorInvoices.cancel invoiceId ≠ CallResult.reject MISSING_ID_ERROR ∧
      RazorInvoices.edit invoiceId params ≠
        CallResult.reject MISSING_ID_ERROR ∧
      RazorInvoices.notify invoiceId medium ≠
        CallResult.reject MISSING_ID_ERROR) := by
  constructor
  · intro h
    refine ⟨?_, ?_, ?_, ?_⟩ <;>
      simp [RazorInvoices.fetch, RazorInvoices.cancel, RazorInvoices.edit,
        RazorInvoices.notify, h, run]
  · intro h
    refine ⟨?_, ?_, ?_, ?_⟩ <;>
      cases params <;>
        simp [RazorInvoices.fetch, RazorInvoices.cancel, RazorInvoices.edit,
          RazorInvoices.notify, MISSING_ID_ERROR, FIELD_MANDATORY_ERROR, h,
          run]

/-- Witness for C7: an empty-string id is rejected with zero calls, a
truthy id is not rejected with the missing-identifier error. -/
theorem id_required_operations_witness :
    run (fun _ => (0 : Nat)) (RazorInvoices.fetch (some "")) =
      ([], Except.error MISSING_ID_ERROR) ∧
    RazorInvoices.fetch (some "inv_1") ≠
      CallResult.reject MISSING_ID_ERROR :=
  ⟨((id_required_operations (fun _ => (0 : Nat)) (some "") none none).1
      rfl).1,
   ((id_required_operations (fun _ => (0 : Nat)) (some "inv_1") none none).2
      rfl).1⟩

def sampleCustomerDetailsId : IRazorCustomerDetailsId :=
  { name := some "Alice Doe", email := none, contact := none,
    id := some "cust_1", gstin := none, customer_name := none,
    customer_email := none, customer_contact := none,
    billing_address := none, shipping_address := none }

def sampleItemId : IRazorLineInvoiceItemId :=
  { item_id := some "item_1", name := some "Widget", description := none,
    amount := 100, currency := "INR", quantity := 1, id := "li_1",
    ref_id := none, ref_type := none, unit_amount := some 100,
    gross_amount := some 100, tax_amount := none, taxable_amount := none,
    type := some "invoice", tax_inclusive := none, hsn_code := none,
    sac_code := none, tax_rate := none, unit := none }

def sampleInvoiceId : IRazorInvoiceId :=
  { description := none, customer_id := some "cust_1", customer := none,
    order_id := some "order_1", status := some TRazorInvoiceStatus.issued,
    expire_by := none, sms_notify := some 1, email_notify := some 1,
    partial_payment := some false, id := "inv_1", entity := "invoice",
    type := "invoice", invoice_number := "INV-001",
    customer_details := sampleCustomerDetailsId,
    line_items := [sampleItemId], issued_at := some 1700000000,
    paid_at := none, cancelled_at := none, expired_at := none,
    sms_status := none, email_status := none, gross_amount := some 100,
    tax_amount := none, taxable_amount := none, amount := 100,
    amount_paid := some 0, amount_due := some 100, currency := "INR",
    notes := none, short_url := none, billing_start := none,
    billing_end := none, group_taxes_discounts := none, date := none,
    terms := none, comment := none, created_at := 1700000000 }

/-- C8: with a truthy invoice id, `edit` rejects with the mandatory-field
error naming `Params` and issues no call when the payload is
null/undefined; with a non-null payload it issues exactly one PATCH to the
base path suffixed with the id, carrying the payload as body, and resolves
with the transport's value. -/
theorem edit_params_mandatory {α : Type} (transport : HttpRequest → α)
    (invoiceId : Option String) (params : Option IRazorInvoiceId)
    (hid : truthyOptStr invoiceId = true) :
    (params = none →
      run transport (RazorInvoices.edit invoiceId params) =
        ([], Except.error (FIELD_MANDATORY_ERROR "Params"))) ∧
    (∀ p : IRazorInvoiceId, params = some p →
      run transport (RazorInvoices.edit invoiceId params) =
        ([{ method := Method.patch,
            url := resourceUrl ++ "/" ++ jsInterp invoiceId,
            data := some (RequestData.editParams p) }],
         Except.ok (transport
           { method := Method.patch,
             url := resourceUrl ++ "/" ++ jsInterp invoiceId,
             data := some (RequestData.editParams p) }))) := by
  constructor
  · intro h
    rw [h]
    simp [RazorInvoices.edit, hid, run]
  · intro p h
    rw [h]
    simp [RazorInvoices.edit, hid, run]

/-- Witness for C8 at a concrete id, with a null payload and with a
concrete identified-invoice payload. -/
theorem edit_params_mandatory_witness :
    run (fun _ => (0 : Nat)) (RazorInvoices.edit (some "inv_1") none) =
      ([], Except.error (FIELD_MANDATORY_ERROR "Params")) ∧
    run (fun _ => (0 : Nat))
        (RazorInvoices.edit (some "inv_1") (some sampleInvoiceId)) =
      ([{ method := Method.patch, url := "/invoices/inv_1",
          data := some (RequestData.editParams sampleInvoiceId) }],
       Except.ok 0) :=
  ⟨(edit_params_mandatory (fun _ => (0 : Nat)) (some "inv_1") none rfl).1 rfl,
   (edit_params_mandatory (fun _ => (0 : Nat)) (some "inv_1")
      (some sampleInvoiceId) rfl).2 sampleInvoiceId rfl⟩

/-- C9: `notify` never validates the medium: for every truthy id and any
medium value whatsoever (undefined included), it issues exactly one POST
with no body to the base path suffixed with `/{id}/notify_by/{medium}`,
interpolating the medium directly into the URL, and resolves with the
transport's value. -/
theorem notify_unvalidated_medium {α : Type} (transport : HttpRequest → α)
    (invoiceId : Option String) (medium : Option String)
    (hid : truthyOptStr invoiceId = true) :
    run transport (RazorInvoices.notify invoiceId medium) =
      ([{ method := Method.post,
          url := resourceUrl ++ "/" ++ jsInterp invoiceId ++ "/notify_by/" ++
            jsInterp medium,
          data := none }],
       Except.ok (transport
         { method := Method.post,
           url := resourceUrl ++ "/" ++ jsInterp invoiceId ++ "/notify_by/" ++
             jsInterp medium,
           data := none })) := by
  simp [RazorInvoices.notify, hid, run]

/-- Witness for C9 at a concrete id with an undefined medium: the literal
text "undefined" is interpolated into the URL. -/
theorem notify_unvalidated_medium_witness :
    run (fun _ => (0 : Nat)) (RazorInvoices.notify (some "inv_1") none) =
      ([{ method := Method.post,
          url := "/invoices/inv_1/notify_by/undefined", data := none }],
       Except.ok 0) :=
  notify_unvalidated_medium (fun _ => (0 : Nat)) (some "inv_1") none rfl

def draftEmptyCustomerId : IRazorInvoice :=
  { sampleDraft with customer_id := some "" }

def zeroAmountItem : IRazorLineInvoiceItem :=
  { item_id := none, name := some "Widget", description := none,
    amount := 0, currency := "INR", quantity := 1 }

def draftZeroAmount : IRazorInvoice :=
  { sampleDraft with line_items := some [zeroAmountItem] }

/-- C10: the presence checks of `create` are truthiness checks, so
falsy-but-present values count as absent: a draft with `customer_id` the
empty string and no `customer` is rejected with the customer-identity
error, and a line item with no `item_id`, a present `name` and `amount`
equal to the number 0 is rejected with the `item_id`-or-`amount` error
even though an amount field is supplied. -/
theorem create_truthiness_of_presence :
    RazorInvoices.create draftEmptyCustomerId =
      CallResult.reject (RazorError.strErr customerIdentityMsg) ∧
    RazorInvoices.create draftZeroAmount =
      CallResult.reject (RazorError.strErr itemIdOrAmountMsg) :=
  ⟨rfl, rfl⟩
